import Mathlib

/-!
Verification of the authenticated request pipeline (`src/frontend/src/lib/api.ts`),
the auth store (`src/frontend/src/lib/auth-store.ts`) and the data-table component
(`src/frontend/src/components/DataTable.tsx`) of the starter-project repository.

The TypeScript sources are shallowly embedded: `localStorage` becomes an explicit
`Storage` record over the three keys the code touches, the axios request object
becomes `RequestConfig` (its URL/body identity abstracted as a `tag`), and the
asynchronous interceptor chain becomes pure functions threaded through a `World`
(storage plus the `window.location.href` navigation effect).  JavaScript
truthiness of strings (`if (token)` is false for the empty string) and of numbers
(`x || d` picks `d` when `x` is `0` or `undefined`) is modelled explicitly.
-/

/-- The three `localStorage` keys the frontend uses, each `none` when absent. -/
structure Storage where
  accessToken : Option String
  refreshToken : Option String
  user : Option String
deriving DecidableEq, Repr

/-- JavaScript truthiness of a possibly-absent string: `null` and `""` are falsy. -/
def truthy : Option String → Bool
  | none => false
  | some s => s != ""

/-- An axios request config as the interceptors see it: `tag` abstracts the
request identity (method, URL, body), `authorization` the `Authorization`
header, `retryMarker` the ad hoc `_retry` flag set by the response
interceptor. -/
structure RequestConfig where
  tag : Nat
  authorization : Option String
  retryMarker : Bool
deriving DecidableEq, Repr

/-- The token pair returned by the `/api/auth/refresh` endpoint
(`AuthResponse`, restricted to the fields the interceptor reads). -/
structure AuthTokens where
  accessToken : String
  refreshToken : String
deriving DecidableEq, Repr

/-- Ways the refresh call (`axios.post(.../api/auth/refresh)`) can fail:
the endpoint rejects with a status, or a network/transport error occurs. -/
inductive RefreshFailure where
  | rejected (status : Nat)
  | network
deriving DecidableEq, Repr

/-- Process-wide mutable state the pipeline touches: the stored credentials
and the `window.location.href` assignment (navigation target, if any). -/
structure World where
  storage : Storage
  navigatedTo : Option String
deriving DecidableEq, Repr

/-- The request interceptor (`api.interceptors.request.use`): if a stored
access token exists (JS-truthy), set the `Authorization` header to
`Bearer {token}`; otherwise return the config unchanged. -/
def requestInterceptor (st : Storage) (config : RequestConfig) : RequestConfig :=
  match st.accessToken with
  | some token =>
      if token = "" then config
      else { config with authorization := some ("Bearer " ++ token) }
  | none => config

/-- What the response-error interceptor hands back for one failed response:
resubmit the (patched) original request through the instance
(`return api(originalRequest)`), reject with the error that triggered the
handler (`return Promise.reject(error)`), or reject with the refresh
failure (`return Promise.reject(refreshError)`). -/
inductive HandlerResult where
  | resubmit (cfg : RequestConfig)
  | rejectHttp (status : Option Nat)
  | rejectRefresh (e : RefreshFailure)
deriving DecidableEq, Repr

/-- Output of one run of the response-error interceptor, with a ghost
counter `refreshCalls` that is `1` exactly on the branches where the source
posts to the refresh endpoint. -/
structure HandlerOutput where
  world : World
  result : HandlerResult
  refreshCalls : Nat
deriving DecidableEq, Repr

/-- The response-error interceptor (`api.interceptors.response.use`, error
handler).  `status` is `error.response?.status` (`none` for a transport
error), `originalRequest` is `error.config`.  On a first 401 it marks the
request retried, reads the stored refresh token and, when one is JS-truthy,
posts it to the refresh endpoint: on success it stores the new pair,
patches the original request's header and resubmits it; on failure it
removes all three keys, navigates to `/login` and rejects with the refresh
error.  In every other case — non-401, already-retried, or no refresh token
stored — it rejects with the triggering error, leaving the world alone. -/
def responseErrorHandler (refresh : String → Except RefreshFailure AuthTokens)
    (w : World) (status : Option Nat) (originalRequest : RequestConfig) : HandlerOutput :=
  if status = some 401 ∧ originalRequest.retryMarker = false then
    let req := { originalRequest with retryMarker := true }
    match w.storage.refreshToken with
    | some rt =>
        if rt = "" then ⟨w, .rejectHttp status, 0⟩
        else
          match refresh rt with
          | .ok pair =>
              ⟨⟨⟨some pair.accessToken, some pair.refreshToken, w.storage.user⟩, w.navigatedTo⟩,
               .resubmit { req with authorization := some ("Bearer " ++ pair.accessToken) }, 1⟩
          | .error e =>
              ⟨⟨⟨none, none, none⟩, some "/login"⟩, .rejectRefresh e, 1⟩
    | none => ⟨w, .rejectHttp status, 0⟩
  else ⟨w, .rejectHttp status, 0⟩

/-- Outcome of one submission of the logical request to the server:
a successful response (opaque payload) or a failure with an optional
HTTP status (`none` models a transport error). -/
inductive AttemptOutcome where
  | success (v : Nat)
  | failure (status : Option Nat)
deriving DecidableEq, Repr

/-- How the caller's promise for the logical request settles. -/
inductive FinalResult where
  | resolved (v : Nat)
  | rejectedHttp (status : Option Nat)
  | rejectedRefresh (e : RefreshFailure)
  | stillPending
deriving DecidableEq, Repr

/-- Trace of one logical request through the pipeline: the final world and
promise outcome, the total number of refresh-endpoint calls, and the list
of configs actually submitted to the server (after the request
interceptor), in order. -/
structure RunStats where
  world : World
  result : FinalResult
  refreshCalls : Nat
  submitted : List RequestConfig
deriving DecidableEq, Repr

/-- Driver for one logical request: each submission first passes through the
request interceptor, its outcome (drawn from `outcomes`) is then fed to the
response-error interceptor, and a `resubmit` re-enters the pipeline
(`return api(originalRequest)` hits the request interceptor again).
`outcomes` doubles as fuel; an exhausted list leaves the promise pending. -/
def runAttempts (refresh : String → Except RefreshFailure AuthTokens) :
    List AttemptOutcome → World → RequestConfig → RunStats
  | [], w, _ => ⟨w, .stillPending, 0, []⟩
  | o :: rest, w, cfg =>
      let sent := requestInterceptor w.storage cfg
      match o with
      | .success v => ⟨w, .resolved v, 0, [sent]⟩
      | .failure st =>
          let h := responseErrorHandler refresh w st sent
          match h.result with
          | .resubmit cfg' =>
              let r := runAttempts refresh rest h.world cfg'
              ⟨r.world, r.result, h.refreshCalls + r.refreshCalls, sent :: r.submitted⟩
          | .rejectHttp st' => ⟨h.world, .rejectedHttp st', h.refreshCalls, [sent]⟩
          | .rejectRefresh e => ⟨h.world, .rejectedRefresh e, h.refreshCalls, [sent]⟩

/-- A user's role (`'USER' | 'ADMIN'` in `src/frontend/src/types`). -/
inductive Role where
  | standard
  | admin
deriving DecidableEq, Repr

/-- The authenticated principal cached in storage (`User` in the frontend
types: id, email, name, role). -/
structure User where
  id : Int
  email : String
  name : String
  role : Role
deriving DecidableEq, Repr

/-- The in-memory zustand auth state (`AuthState` data fields). -/
structure AuthUIState where
  user : Option User
  isAuthenticated : Bool
  isLoading : Bool
deriving DecidableEq, Repr

/-- Function `initialize` from `auth-store.ts`: restore the session from storage.
`parse` stands for `JSON.parse` on the stored user string (`none` when it
throws).  When both the access token and the user string are JS-truthy, a
parse success yields an authenticated state; a parse failure resets the
state to anonymous.  Otherwise only `isLoading` is cleared.  The function
returns the storage unchanged: the source's `initialize` performs no
`localStorage` writes or removals in any branch. -/
def initializeAuth (parse : String → Option User) (st : Storage) (s : AuthUIState) :
    Storage × AuthUIState :=
  match st.accessToken, st.user with
  | some tok, some userStr =>
      if tok = "" ∨ userStr = "" then (st, { s with isLoading := false })
      else
        match parse userStr with
        | some u => (st, ⟨some u, true, false⟩)
        | none => (st, ⟨none, false, false⟩)
  | _, _ => (st, { s with isLoading := false })

/-- Failure of the server logout call (`api.post(.../api/auth/logout)`),
kept abstract: status or transport, the source never inspects it. -/
structure ApiFailure where
  code : Nat
deriving DecidableEq, Repr

/-- Function `logout` from `auth-store.ts`: inside `try`, read the stored refresh
token and, when JS-truthy, post it to the logout endpoint; the `catch`
block swallows any failure of that call; the `finally` block removes all
three storage keys and resets the in-memory state to anonymous.  The
`Except` result is how the caller's promise settles. -/
def logout (serverLogout : String → Except ApiFailure Unit) (st : Storage) (s : AuthUIState) :
    Except ApiFailure (Storage × AuthUIState) :=
  let attempt : Except ApiFailure Unit :=
    match st.refreshToken with
    | some rt => if rt = "" then .ok () else serverLogout rt
    | none => .ok ()
  let caught : Except ApiFailure Unit :=
    match attempt with
    | .ok u => .ok u
    | .error _ => .ok ()
  match caught with
  | .ok _ => .ok (⟨none, none, none⟩, { s with user := none, isAuthenticated := false })
  | .error e => .error e

/-- JavaScript `x || d` for a possibly-absent number: `undefined` and `0`
are falsy, so both fall back to the default. -/
def jsOr (x : Option Int) (d : Int) : Int :=
  match x with
  | none => d
  | some v => if v = 0 then d else v

/-- The inputs and library-held state a `DataTable` instance's pagination
logic reads: the three optional server-side props, whether an
`onPaginationChange` callback was supplied, the table-internal pagination
state (client mode), and `table.getPageCount()` as the library derives it
from the data in client mode. -/
structure TableView where
  serverPageCount : Option Int
  serverPageIndex : Option Int
  serverPageSize : Option Int
  hasPaginationCallback : Bool
  internalPageIndex : Int
  internalPageSize : Int
  clientPageCount : Int
deriving DecidableEq, Repr

/-- Source: `isServerSide = pageCount !== undefined` (presence, not truthiness). -/
def isServerSide (t : TableView) : Bool :=
  t.serverPageCount.isSome

/-- Source `currentPageIndex`: `serverPageIndex || 0` in server mode, the internal
pagination state's index in client mode. -/
def currentPageIndex (t : TableView) : Int :=
  if isServerSide t then jsOr t.serverPageIndex 0 else t.internalPageIndex

/-- Source `currentPageSize`: `serverPageSize || 10` in server mode, the internal
pagination state's size in client mode. -/
def currentPageSize (t : TableView) : Int :=
  if isServerSide t then jsOr t.serverPageSize 10 else t.internalPageSize

/-- Source `totalPages`: `serverPageCount || 0` in server mode,
`table.getPageCount()` in client mode. -/
def totalPages (t : TableView) : Int :=
  if isServerSide t then jsOr t.serverPageCount 0 else t.clientPageCount

/-- What a pagination button's `onClick` does: invoke the caller's
`onPaginationChange(pageIndex, pageSize)` callback, or call one of the
table's internal mutation methods (`setPageIndex(i)`, `previousPage()`,
`nextPage()`). -/
inductive NavEffect where
  | invokeCallback (pageIndex pageSize : Int)
  | setPageIndexInternal (i : Int)
  | previousPageInternal
  | nextPageInternal
deriving DecidableEq, Repr

/-- The first-page button: `onPaginationChange(0, currentPageSize)` when
server-side with a callback, else `table.setPageIndex(0)`. -/
def clickFirst (t : TableView) : NavEffect :=
  if isServerSide t && t.hasPaginationCallback then
    .invokeCallback 0 (currentPageSize t)
  else .setPageIndexInternal 0

/-- The previous-page button: `onPaginationChange(currentPageIndex - 1,
currentPageSize)` when server-side with a callback, else
`table.previousPage()`. -/
def clickPrevious (t : TableView) : NavEffect :=
  if isServerSide t && t.hasPaginationCallback then
    .invokeCallback (currentPageIndex t - 1) (currentPageSize t)
  else .previousPageInternal

/-- The next-page button: `onPaginationChange(currentPageIndex + 1,
currentPageSize)` when server-side with a callback, else
`table.nextPage()`. -/
def clickNext (t : TableView) : NavEffect :=
  if isServerSide t && t.hasPaginationCallback then
    .invokeCallback (currentPageIndex t + 1) (currentPageSize t)
  else .nextPageInternal

/-- The last-page button: `onPaginationChange(totalPages - 1,
currentPageSize)` when server-side with a callback, else
`table.setPageIndex(totalPages - 1)`. -/
def clickLast (t : TableView) : NavEffect :=
  if isServerSide t && t.hasPaginationCallback then
    .invokeCallback (totalPages t - 1) (currentPageSize t)
  else .setPageIndexInternal (totalPages t - 1)

/-- Disabled condition of the first-page button: `currentPageIndex === 0`. -/
def firstDisabled (t : TableView) : Bool :=
  currentPageIndex t == 0

/-- Disabled condition of the previous-page button: `currentPageIndex === 0`. -/
def previousDisabled (t : TableView) : Bool :=
  currentPageIndex t == 0

/-- Disabled condition of the next-page button:
`currentPageIndex >= totalPages - 1`. -/
def nextDisabled (t : TableView) : Bool :=
  totalPages t - 1 ≤ currentPageIndex t

/-- Disabled condition of the last-page button:
`currentPageIndex >= totalPages - 1`. -/
def lastDisabled (t : TableView) : Bool :=
  totalPages t - 1 ≤ currentPageIndex t

/-- A pagination window: zero-based page index and page size. -/
structure PageWindow where
  pageIndex : Nat
  pageSize : Nat
deriving DecidableEq, Repr

/-- Keep the rows satisfying the filter predicate, in order. -/
def filterRows {α : Type} (F : α → Bool) (D : List α) : List α :=
  D.filter F

/-- Insert an element into a list sorted by the comparator `le`. -/
def insertSorted {α : Type} (le : α → α → Bool) (x : α) : List α → List α
  | [] => [x]
  | y :: ys => if le x y then x :: y :: ys else y :: insertSorted le x ys

/-- Insertion sort by the comparator `le`. -/
def sortRows {α : Type} (le : α → α → Bool) : List α → List α
  | [] => []
  | x :: xs => insertSorted le x (sortRows le xs)

/-- Take the window's page out of the row list:
`rows.slice(pageIndex * pageSize, (pageIndex + 1) * pageSize)`. -/
def paginate {α : Type} (w : PageWindow) (rows : List α) : List α :=
  (rows.drop (w.pageIndex * w.pageSize)).take w.pageSize

/-- Modelled from the spec: TanStack Table's core row model (library code,
not under `src/`) — the rows are the caller-supplied dataset. -/
def getCoreRowModelRows {α : Type} (D : List α) : List α :=
  D

/-- Modelled from the spec: TanStack Table's filtered row model (library
code, not under `src/`) — applies the active filter predicate to its input
row model. -/
def getFilteredRowModelRows {α : Type} (F : α → Bool) (rows : List α) : List α :=
  filterRows F rows

/-- Modelled from the spec: TanStack Table's sorted row model (library
code, not under `src/`) — sorts its input row model by the active
comparator. -/
def getSortedRowModelRows {α : Type} (le : α → α → Bool) (rows : List α) : List α :=
  sortRows le rows

/-- Modelled from the spec: TanStack Table's pagination row model (library
code, not under `src/`) — slices the current page window out of its input
row model. -/
def getPaginationRowModelRows {α : Type} (w : PageWindow) (rows : List α) : List α :=
  paginate w rows

/-- Rows the table renders, per the `useReactTable` wiring in
`DataTable.tsx`: core → filtered → sorted, and — only in client mode, where
`getPaginationRowModel` is supplied (`isServerSide ? undefined :
getPaginationRowModel()`) — then paginated. -/
def displayedRows {α : Type} (server : Bool) (F : α → Bool) (le : α → α → Bool)
    (w : PageWindow) (D : List α) : List α :=
  if server then
    getSortedRowModelRows le (getFilteredRowModelRows F (getCoreRowModelRows D))
  else
    getPaginationRowModelRows w (getSortedRowModelRows le (getFilteredRowModelRows F (getCoreRowModelRows D)))

/-- The client-mode table state the displayed rows depend on: the active
filter predicate, sort comparator, and pagination window. -/
structure ClientTableState (α : Type) where
  filterF : α → Bool
  sortLe : α → α → Bool
  window : PageWindow

/-- A user interaction that changes one piece of client-mode table state. -/
inductive TableEvent (α : Type) where
  | setFilter (F : α → Bool)
  | setSort (le : α → α → Bool)
  | setPage (w : PageWindow)

/-- Apply one interaction to the client-mode table state. -/
def applyEvent {α : Type} (s : ClientTableState α) : TableEvent α → ClientTableState α
  | .setFilter F => { s with filterF := F }
  | .setSort le => { s with sortLe := le }
  | .setPage w => { s with window := w }

/-- Render the client-mode table: the displayed rows recomputed from the
full dataset and the current state on every render. -/
def renderClient {α : Type} (D : List α) (s : ClientTableState α) : List α :=
  displayedRows false s.filterF s.sortLe s.window D

theorem requestInterceptor_retryMarker (st : Storage) (cfg : RequestConfig) :
    (requestInterceptor st cfg).retryMarker = cfg.retryMarker := by
  unfold requestInterceptor
  cases st.accessToken with
  | none => rfl
  | some token => by_cases h : token = "" <;> simp [h]

theorem requestInterceptor_tag (st : Storage) (cfg : RequestConfig) :
    (requestInterceptor st cfg).tag = cfg.tag := by
  unfold requestInterceptor
  cases st.accessToken with
  | none => rfl
  | some token => by_cases h : token = "" <;> simp [h]

theorem handler_already_retried (refresh : String → Except RefreshFailure AuthTokens)
    (w : World) (st : Option Nat) (cfg : RequestConfig) (h : cfg.retryMarker = true) :
    responseErrorHandler refresh w st cfg = ⟨w, .rejectHttp st, 0⟩ := by
  unfold responseErrorHandler
  rw [if_neg]
  simp [h]

/-- C3: for every outbound request, if a (JS-truthy) access token is stored
the request interceptor sets the Authorization header to `Bearer {token}`
and changes nothing else; if no access token is stored the config is
returned entirely unchanged. -/
theorem c3_token_attachment (st : Storage) (cfg : RequestConfig) :
    (∀ t : String, st.accessToken = some t → t ≠ "" →
      requestInterceptor st cfg = { cfg with authorization := some ("Bearer " ++ t) })
    ∧ (truthy st.accessToken = false → requestInterceptor st cfg = cfg) := by
  constructor
  · intro t ht hne
    simp [requestInterceptor, ht, hne]
  · intro h
    unfold requestInterceptor
    cases hat : st.accessToken with
    | none => rfl
    | some t =>
      rw [hat] at h
      simp [truthy] at h
      simp [h]

theorem c3_token_attachment_witness :
    requestInterceptor ⟨some "A1", some "R1", none⟩ ⟨0, none, false⟩
      = ⟨0, some ("Bearer " ++ "A1"), false⟩
    ∧ requestInterceptor ⟨none, some "R1", none⟩ ⟨0, none, false⟩ = ⟨0, none, false⟩ :=
  ⟨(c3_token_attachment ⟨some "A1", some "R1", none⟩ ⟨0, none, false⟩).1 "A1" rfl (by decide),
   (c3_token_attachment ⟨none, some "R1", none⟩ ⟨0, none, false⟩).2 (by decide)⟩

/-- C7: in both table modes, the first/previous buttons are disabled iff
the current page index is `0`, and the next/last buttons are disabled iff
the current page index is at least `totalPages - 1`. -/
theorem c7_boundary_disabling (t : TableView) :
    (firstDisabled t = true ↔ currentPageIndex t = 0)
    ∧ (previousDisabled t = true ↔ currentPageIndex t = 0)
    ∧ (nextDisabled t = true ↔ totalPages t - 1 ≤ currentPageIndex t)
    ∧ (lastDisabled t = true ↔ totalPages t - 1 ≤ currentPageIndex t) := by
  refine ⟨?_, ?_, ?_, ?_⟩ <;>
    simp [firstDisabled, previousDisabled, nextDisabled, lastDisabled]

/-- C9: during session initialization, when an access token and a user
string are both stored (JS-truthy) but the user string fails to parse, the
in-memory state is reset to anonymous (user `none`, not authenticated)
while the stored credential keys are left untouched. -/
theorem c9_corrupt_user_cache (parse : String → Option User) (st : Storage) (s : AuthUIState)
    (tok userStr : String)
    (htok : st.accessToken = some tok) (htokne : tok ≠ "")
    (hus : st.user = some userStr) (husne : userStr ≠ "")
    (hparse : parse userStr = none) :
    initializeAuth parse st s = (st, ⟨none, false, false⟩) := by
  simp [initializeAuth, htok, hus, htokne, husne, hparse]

theorem c9_corrupt_user_cache_witness :
    initializeAuth (fun _ => none) ⟨some "A1", some "R1", some "oops"⟩ ⟨none, false, true⟩
      = (⟨some "A1", some "R1", some "oops"⟩, ⟨none, false, false⟩) :=
  c9_corrupt_user_cache (fun _ => none) ⟨some "A1", some "R1", some "oops"⟩ ⟨none, false, true⟩
    "A1" "oops" rfl (by decide) rfl (by decide) rfl

/-- C10: logout always ends anonymous — whatever the server logout call
does (and whether it is made at all), the three storage keys are removed,
the in-memory state drops the user and authentication flag, and the
caller's promise resolves (no server failure is propagated). -/
theorem c10_logout_always_anonymous (serverLogout : String → Except ApiFailure Unit)
    (st : Storage) (s : AuthUIState) :
    logout serverLogout st s
      = .ok (⟨none, none, none⟩, { s with user := none, isAuthenticated := false }) := by
  unfold logout
  cases h : st.refreshToken with
  | none => rfl
  | some rt =>
    by_cases hrt : rt = ""
    · simp [hrt]
    · simp only [hrt]
      cases serverLogout rt <;> simp

/-- C5: a successful renewal rewrites only the two token keys — the stored
user value (and the navigation state) after the handler runs are exactly
what they were before, while the tokens become the refresh endpoint's
returned pair. -/
theorem c5_renewal_preserves_user (refresh : String → Except RefreshFailure AuthTokens)
    (w : World) (cfg : RequestConfig) (rt : String) (pair : AuthTokens)
    (hm : cfg.retryMarker = false)
    (hrt : w.storage.refreshToken = some rt) (hne : rt ≠ "")
    (hr : refresh rt = .ok pair) :
    (responseErrorHandler refresh w (some 401) cfg).world
      = ⟨⟨some pair.accessToken, some pair.refreshToken, w.storage.user⟩, w.navigatedTo⟩ := by
  simp [responseErrorHandler, hm, hrt, hne, hr]

theorem c5_renewal_preserves_user_witness :
    (responseErrorHandler (fun _ => .ok ⟨"A2", "R2"⟩)
        ⟨⟨some "A1", some "R1", some "cached"⟩, none⟩ (some 401) ⟨0, none, false⟩).world
      = ⟨⟨some "A2", some "R2", some "cached"⟩, none⟩ :=
  c5_renewal_preserves_user (fun _ => .ok ⟨"A2", "R2"⟩)
    ⟨⟨some "A1", some "R1", some "cached"⟩, none⟩ ⟨0, none, false⟩ "R1" ⟨"A2", "R2"⟩
    rfl rfl (by decide) rfl

/-- C6: when the total-page-count prop is supplied and a pagination
callback is given, every navigation button only invokes the callback with
the computed target (first `0`, previous `index - 1`, next `index + 1`,
last `totalPages - 1`) and the current page size; when the prop is absent
(client mode), every navigation button calls an internal table mutation
method and never the callback. -/
theorem c6_mode_exclusivity (t : TableView) :
    (isServerSide t = true → t.hasPaginationCallback = true →
      clickFirst t = .invokeCallback 0 (currentPageSize t)
      ∧ clickPrevious t = .invokeCallback (currentPageIndex t - 1) (currentPageSize t)
      ∧ clickNext t = .invokeCallback (currentPageIndex t + 1) (currentPageSize t)
      ∧ clickLast t = .invokeCallback (totalPages t - 1) (currentPageSize t))
    ∧ (isServerSide t = false →
      clickFirst t = .setPageIndexInternal 0
      ∧ clickPrevious t = .previousPageInternal
      ∧ clickNext t = .nextPageInternal
      ∧ clickLast t = .setPageIndexInternal (totalPages t - 1)
      ∧ ∀ i s : Int,
          clickFirst t ≠ .invokeCallback i s ∧ clickPrevious t ≠ .invokeCallback i s
          ∧ clickNext t ≠ .invokeCallback i s ∧ clickLast t ≠ .invokeCallback i s) := by
  constructor
  · intro hs hcb
    refine ⟨?_, ?_, ?_, ?_⟩ <;> simp [clickFirst, clickPrevious, clickNext, clickLast, hs, hcb]
  · intro hs
    refine ⟨?_, ?_, ?_, ?_, ?_⟩ <;>
      simp [clickFirst, clickPrevious, clickNext, clickLast, hs]

theorem c6_mode_exclusivity_witness :
    (clickFirst ⟨some 5, some 2, some 10, true, 0, 10, 0⟩ = .invokeCallback 0 10
      ∧ clickPrevious ⟨some 5, some 2, some 10, true, 0, 10, 0⟩ = .invokeCallback 1 10
      ∧ clickNext ⟨some 5, some 2, some 10, true, 0, 10, 0⟩ = .invokeCallback 3 10
      ∧ clickLast ⟨some 5, some 2, some 10, true, 0, 10, 0⟩ = .invokeCallback 4 10)
    ∧ (clickFirst ⟨none, none, none, false, 3, 10, 7⟩ = .setPageIndexInternal 0
      ∧ clickPrevious ⟨none, none, none, false, 3, 10, 7⟩ = .previousPageInternal
      ∧ clickNext ⟨none, none, none, false, 3, 10, 7⟩ = .nextPageInternal
      ∧ clickLast ⟨none, none, none, false, 3, 10, 7⟩ = .setPageIndexInternal 6) := by
  have h1 := (c6_mode_exclusivity ⟨some 5, some 2, some 10, true, 0, 10, 0⟩).1 rfl rfl
  have h2 := (c6_mode_exclusivity ⟨none, none, none, false, 3, 10, 7⟩).2 rfl
  exact ⟨⟨h1.1, h1.2.1, h1.2.2.1, h1.2.2.2⟩, ⟨h2.1, h2.2.1, h2.2.2.1, h2.2.2.2.1⟩⟩

/-- C8: in client mode, after any sequence of filter, sort and page-window
changes, the rows the table displays equal
`paginate(sort(filter(D, F), S), W)` computed from the full dataset at the
resulting state — filtering always reapplies to the whole dataset first,
then sorting, then pagination, regardless of the order of the changes. -/
theorem c8_client_pipeline_order {α : Type} (D : List α) (es : List (TableEvent α))
    (s0 : ClientTableState α) :
    renderClient D (es.foldl applyEvent s0)
      = paginate (es.foldl applyEvent s0).window
          (sortRows (es.foldl applyEvent s0).sortLe
            (filterRows (es.foldl applyEvent s0).filterF D)) := by
  rfl

/-- C1 counterexample: a first 401 arriving while no refresh token is
stored leaves the cached user in storage and performs no navigation — the
handler merely rejects with the original error, contradicting the claim
that every renewal failure clears all three keys and navigates to
`/login`. -/
theorem c1_counterexample :
    ¬ ((responseErrorHandler (fun _ => .error .network)
          ⟨⟨some "A1", none, some "cached"⟩, none⟩ (some 401) ⟨0, none, false⟩).world.storage.user
            = none
        ∧ (responseErrorHandler (fun _ => .error .network)
          ⟨⟨some "A1", none, some "cached"⟩, none⟩ (some 401) ⟨0, none, false⟩).world.navigatedTo
            = some "/login") := by
  decide

/-- C1 amended: when a (JS-truthy) refresh token is stored and the refresh
call fails (endpoint rejects or network error), the handler removes all
three credential keys, navigates to `/login` and propagates the refresh
failure; when no refresh token is stored, the original 401 is propagated
with storage and navigation untouched and no renewal attempted. -/
theorem c1_amended_renewal_failure (refresh : String → Except RefreshFailure AuthTokens)
    (w : World) (cfg : RequestConfig) (hm : cfg.retryMarker = false) :
    (∀ (rt : String) (e : RefreshFailure),
        w.storage.refreshToken = some rt → rt ≠ "" → refresh rt = .error e →
        responseErrorHandler refresh w (some 401) cfg
          = ⟨⟨⟨none, none, none⟩, some "/login"⟩, .rejectRefresh e, 1⟩)
    ∧ (truthy w.storage.refreshToken = false →
        responseErrorHandler refresh w (some 401) cfg = ⟨w, .rejectHttp (some 401), 0⟩) := by
  constructor
  · intro rt e hrt hne hr
    simp [responseErrorHandler, hm, hrt, hne, hr]
  · intro h
    unfold responseErrorHandler
    rw [if_pos ⟨rfl, hm⟩]
    cases hrt : w.storage.refreshToken with
    | none => rfl
    | some rt =>
      rw [hrt] at h
      simp [truthy] at h
      simp [h]

theorem c1_amended_renewal_failure_witness :
    responseErrorHandler (fun _ => .error .network)
        ⟨⟨some "A1", some "R1", some "cached"⟩, none⟩ (some 401) ⟨0, none, false⟩
      = ⟨⟨⟨none, none, none⟩, some "/login"⟩, .rejectRefresh .network, 1⟩
    ∧ responseErrorHandler (fun _ => .error .network)
        ⟨⟨some "A1", none, some "cached"⟩, some "/x"⟩ (some 401) ⟨0, none, false⟩
      = ⟨⟨⟨some "A1", none, some "cached"⟩, some "/x"⟩, .rejectHttp (some 401), 0⟩ :=
  ⟨(c1_amended_renewal_failure (fun _ => .error .network)
      ⟨⟨some "A1", some "R1", some "cached"⟩, none⟩ ⟨0, none, false⟩ rfl).1
      "R1" .network rfl (by decide) rfl,
   (c1_amended_renewal_failure (fun _ => .error .network)
      ⟨⟨some "A1", none, some "cached"⟩, some "/x"⟩ ⟨0, none, false⟩ rfl).2 (by decide)⟩

theorem handler_not_first_401 (refresh : String → Except RefreshFailure AuthTokens)
    (w : World) (st : Option Nat) (cfg : RequestConfig)
    (h : ¬ (st = some 401 ∧ cfg.retryMarker = false)) :
    responseErrorHandler refresh w st cfg = ⟨w, .rejectHttp st, 0⟩ := by
  unfold responseErrorHandler
  rw [if_neg h]

theorem handler_no_token (refresh : String → Except RefreshFailure AuthTokens)
    (w : World) (cfg : RequestConfig)
    (hm : cfg.retryMarker = false) (h : truthy w.storage.refreshToken = false) :
    responseErrorHandler refresh w (some 401) cfg = ⟨w, .rejectHttp (some 401), 0⟩ := by
  unfold responseErrorHandler
  rw [if_pos ⟨rfl, hm⟩]
  cases hrt : w.storage.refreshToken with
  | none => rfl
  | some rt =>
    rw [hrt] at h
    simp [truthy] at h
    simp [h]

theorem handler_refresh_error (refresh : String → Except RefreshFailure AuthTokens)
    (w : World) (cfg : RequestConfig) (rt : String) (e : RefreshFailure)
    (hm : cfg.retryMarker = false)
    (hrt : w.storage.refreshToken = some rt) (hne : rt ≠ "") (hr : refresh rt = .error e) :
    responseErrorHandler refresh w (some 401) cfg
      = ⟨⟨⟨none, none, none⟩, some "/login"⟩, .rejectRefresh e, 1⟩ := by
  simp [responseErrorHandler, hm, hrt, hne, hr]

theorem handler_refresh_success (refresh : String → Except RefreshFailure AuthTokens)
    (w : World) (cfg : RequestConfig) (rt : String) (pair : AuthTokens)
    (hm : cfg.retryMarker = false)
    (hrt : w.storage.refreshToken = some rt) (hne : rt ≠ "") (hr : refresh rt = .ok pair) :
    responseErrorHandler refresh w (some 401) cfg
      = ⟨⟨⟨some pair.accessToken, some pair.refreshToken, w.storage.user⟩, w.navigatedTo⟩,
         .resubmit ⟨cfg.tag, some ("Bearer " ++ pair.accessToken), true⟩, 1⟩ := by
  simp [responseErrorHandler, hm, hrt, hne, hr]

theorem runAttempts_marked_no_refresh (refresh : String → Except RefreshFailure AuthTokens)
    (attempts : List AttemptOutcome) (w : World) (tg : Nat) (auth : Option String) :
    (runAttempts refresh attempts w ⟨tg, auth, true⟩).refreshCalls = 0 := by
  cases attempts with
  | nil => rfl
  | cons o rest =>
    cases o with
    | success v => rfl
    | failure st =>
      cases hat : w.storage.accessToken with
      | none => simp [runAttempts, requestInterceptor, hat, responseErrorHandler]
      | some token =>
        by_cases htok : token = "" <;>
          simp [runAttempts, requestInterceptor, hat, htok, responseErrorHandler]

/-- C2: across the whole life of a logical request, however many failures
its submissions produce, the pipeline calls the refresh endpoint at most
once; and a 401 arriving on a request whose retry marker is already set is
rejected as-is, with no renewal attempt and the world untouched. -/
theorem c2_single_renewal (refresh : String → Except RefreshFailure AuthTokens) :
    (∀ (attempts : List AttemptOutcome) (w : World) (cfg : RequestConfig),
        (runAttempts refresh attempts w cfg).refreshCalls ≤ 1)
    ∧ (∀ (w : World) (cfg : RequestConfig), cfg.retryMarker = true →
        responseErrorHandler refresh w (some 401) cfg = ⟨w, .rejectHttp (some 401), 0⟩) := by
  constructor
  · intro attempts w cfg
    cases attempts with
    | nil => simp [runAttempts]
    | cons o rest =>
      cases o with
      | success v => simp [runAttempts]
      | failure st =>
        by_cases hm : (requestInterceptor w.storage cfg).retryMarker = false
        · by_cases h401 : st = some 401
          · subst h401
            cases hrt : w.storage.refreshToken with
            | none =>
              have h := handler_no_token refresh w (requestInterceptor w.storage cfg) hm
                (by simp [truthy, hrt])
              simp [runAttempts, h]
            | some rt =>
              by_cases he : rt = ""
              · have h := handler_no_token refresh w (requestInterceptor w.storage cfg) hm
                  (by simp [truthy, hrt, he])
                simp [runAttempts, h]
              · cases hr : refresh rt with
                | error e =>
                  have h := handler_refresh_error refresh w (requestInterceptor w.storage cfg)
                    rt e hm hrt he hr
                  simp [runAttempts, h]
                | ok pair =>
                  have h := handler_refresh_success refresh w (requestInterceptor w.storage cfg)
                    rt pair hm hrt he hr
                  have h0 := runAttempts_marked_no_refresh refresh rest
                    ⟨⟨some pair.accessToken, some pair.refreshToken, w.storage.user⟩, w.navigatedTo⟩
                    (requestInterceptor w.storage cfg).tag
                    (some ("Bearer " ++ pair.accessToken))
                  simp [runAttempts, h, h0]
          · have h := handler_not_first_401 refresh w st (requestInterceptor w.storage cfg)
              (by intro hcon; exact h401 hcon.1)
            simp [runAttempts, h]
        · have h := handler_not_first_401 refresh w st (requestInterceptor w.storage cfg)
            (by intro hcon; exact hm hcon.2)
          simp [runAttempts, h]
  · intro w cfg h
    exact handler_not_first_401 refresh w (some 401) cfg (by simp [h])

theorem c2_single_renewal_witness :
    (runAttempts (fun _ => .ok ⟨"A2", "R2"⟩) [.failure (some 401), .failure (some 401)]
        ⟨⟨some "A1", some "R1", some "u"⟩, none⟩ ⟨0, none, false⟩).refreshCalls ≤ 1
    ∧ responseErrorHandler (fun _ => .ok ⟨"A2", "R2"⟩)
        ⟨⟨some "A1", some "R1", some "u"⟩, none⟩ (some 401) ⟨0, none, true⟩
      = ⟨⟨⟨some "A1", some "R1", some "u"⟩, none⟩, .rejectHttp (some 401), 0⟩ :=
  ⟨(c2_single_renewal (fun _ => .ok ⟨"A2", "R2"⟩)).1
      [.failure (some 401), .failure (some 401)]
      ⟨⟨some "A1", some "R1", some "u"⟩, none⟩ ⟨0, none, false⟩,
   (c2_single_renewal (fun _ => .ok ⟨"A2", "R2"⟩)).2
      ⟨⟨some "A1", some "R1", some "u"⟩, none⟩ ⟨0, none, true⟩ rfl⟩

/-- C4: a first 401 answered by a successful refresh stores exactly the
returned token pair (user and navigation untouched), submits exactly two
requests — the original, then the same request (same tag) again with
header `Bearer {new accessToken}` and its retry marker set — calls the
refresh endpoint exactly once, and settles the caller's promise with the
outcome of that single resubmission. -/
theorem c4_renewal_success_resubmit (refresh : String → Except RefreshFailure AuthTokens)
    (w : World) (cfg : RequestConfig) (rt : String) (pair : AuthTokens) (o2 : AttemptOutcome)
    (hm : cfg.retryMarker = false)
    (hrt : w.storage.refreshToken = some rt) (hne : rt ≠ "")
    (hr : refresh rt = .ok pair) :
    runAttempts refresh [.failure (some 401), o2] w cfg
      = ⟨⟨⟨some pair.accessToken, some pair.refreshToken, w.storage.user⟩, w.navigatedTo⟩,
         (match o2 with
          | .success v => .resolved v
          | .failure st2 => .rejectedHttp st2),
         1,
         [requestInterceptor w.storage cfg,
          ⟨cfg.tag, some ("Bearer " ++ pair.accessToken), true⟩]⟩ := by
  have hm1 : (requestInterceptor w.storage cfg).retryMarker = false := by
    rw [requestInterceptor_retryMarker]; exact hm
  have hmain := handler_refresh_success refresh w (requestInterceptor w.storage cfg)
    rt pair hm1 hrt hne hr
  have htag : (requestInterceptor w.storage cfg).tag = cfg.tag := requestInterceptor_tag w.storage cfg
  have hfix : requestInterceptor ⟨some pair.accessToken, some pair.refreshToken, w.storage.user⟩
      ⟨cfg.tag, some ("Bearer " ++ pair.accessToken), true⟩
      = ⟨cfg.tag, some ("Bearer " ++ pair.accessToken), true⟩ := by
    by_cases ha : pair.accessToken = "" <;> simp [requestInterceptor, ha]
  cases o2 with
  | success v => simp [runAttempts, hmain, htag, hfix]
  | failure st2 =>
    have h2 := handler_not_first_401 refresh
      ⟨⟨some pair.accessToken, some pair.refreshToken, w.storage.user⟩, w.navigatedTo⟩ st2
      ⟨cfg.tag, some ("Bearer " ++ pair.accessToken), true⟩
      (by intro hcon; simp at hcon)
    simp [runAttempts, hmain, htag, hfix, h2]

theorem c4_renewal_success_resubmit_witness :
    runAttempts (fun _ => .ok ⟨"A2", "R2"⟩) [.failure (some 401), .success 7]
        ⟨⟨some "A1", some "R1", some "u"⟩, none⟩ ⟨3, none, false⟩
      = ⟨⟨⟨some "A2", some "R2", some "u"⟩, none⟩, .resolved 7, 1,
         [⟨3, some ("Bearer " ++ "A1"), false⟩, ⟨3, some ("Bearer " ++ "A2"), true⟩]⟩ := by
  have h := c4_renewal_success_resubmit (fun _ => .ok ⟨"A2", "R2"⟩)
    ⟨⟨some "A1", some "R1", some "u"⟩, none⟩ ⟨3, none, false⟩ "R1" ⟨"A2", "R2"⟩
    (.success 7) rfl rfl (by decide) rfl
  simpa [requestInterceptor] using h
